import Mathlib

/-!
Shallow embedding of the schedule / lesson / attendance core of the
Sabak-Journal school application (src/school_app/models.py and
src/school_app/views.py).

Conventions of the embedding:
* database rows are Lean structures, tables are lists of rows;
* times of day are minutes since midnight (`Nat`); the form strings
  `"HH:MM"` of the views compare exactly like their minute values;
* calendar dates are day numbers counted from a Monday (`Nat`), so
  `date.weekday()` of Python (Monday = 0) is `d % 7`;
* nullable columns are `Option`; Django `ValidationError` and the view-level
  early returns become typed error values carried next to the
  (possibly unchanged) store.
-/

/-- Row of the Group table (models.py, class Group). -/
structure GroupRow where
  id : Nat
  name : String
  course : Nat
deriving DecidableEq

/-- Row of the Subject table (models.py, class Subject). -/
structure SubjectRow where
  id : Nat
  name : String
deriving DecidableEq

/-- Row of the Teacher table (models.py, class Teacher): a main group, the
many-to-many additional groups and the many-to-many taught subjects, all by id. -/
structure TeacherRow where
  id : Nat
  main_group : Nat
  additional_groups : List Nat
  subjects : List Nat
deriving DecidableEq

/-- Row of the Student table (models.py, class Student): the single group the
student belongs to, by id. -/
structure StudentRow where
  id : Nat
  group : Nat
deriving DecidableEq

/-- Row of the Schedule table (models.py, class Schedule): the weekly
recurring template. -/
structure ScheduleRow where
  id : Nat
  group : Nat
  subject : Nat
  teacher : Nat
  weekday : Nat
  start_time : Nat
  end_time : Nat
  classroom : Option String
  is_active : Bool
deriving DecidableEq

/-- Row of the Lesson table (models.py, class Lesson): one dated occurrence;
`schedule` is the nullable foreign key to the template it was generated from. -/
structure LessonRow where
  id : Nat
  schedule : Option Nat
  subject : Nat
  date : Nat
  group : Nat
  teacher : Option Nat
  classroom : Option String
  start_time : Option Nat
  end_time : Option Nat
  is_from_schedule : Bool
  notes : String
deriving DecidableEq

/-- Row of the Attendance table (models.py, class Attendance); the pair
(lesson, student) is its key (unique_together). -/
structure AttendanceRow where
  lesson : Nat
  student : Nat
  attended : Bool
  late : Bool
  grade : Option Int
deriving DecidableEq

/-- The relational store: one list per table, plus the id sequences used
when new Lesson / Schedule rows are inserted. -/
structure Store where
  groups : List GroupRow
  subjects : List SubjectRow
  teachers : List TeacherRow
  students : List StudentRow
  schedules : List ScheduleRow
  lessons : List LessonRow
  attendances : List AttendanceRow
  nextLessonId : Nat
  nextScheduleId : Nat
deriving DecidableEq

/-- Python `date.weekday()` (Monday = 0) for a day number counted from a
Monday. -/
def dateWeekday (d : Nat) : Nat := d % 7

/-- Primary-key lookup in the Schedule table (`Schedule.objects.get`). -/
def findSchedule (store : Store) (sid : Nat) : Option ScheduleRow :=
  store.schedules.find? (fun s => s.id == sid)

/-- Primary-key lookup in the Subject table. -/
def findSubject (store : Store) (sid : Nat) : Option SubjectRow :=
  store.subjects.find? (fun s => s.id == sid)

/-- Primary-key lookup in the Group table. -/
def findGroup (store : Store) (gid : Nat) : Option GroupRow :=
  store.groups.find? (fun g => g.id == gid)

/-- Primary-key lookup in the Teacher table. -/
def findTeacher (store : Store) (tid : Nat) : Option TeacherRow :=
  store.teachers.find? (fun t => t.id == tid)

/-- The authorization test repeated across views.py: the teacher's main
group is the given group, or the group is among the additional groups
(`teacher.main_group != group and not teacher.additional_groups.filter(...)`). -/
def teacherWorksWithGroup (t : TeacherRow) (gid : Nat) : Bool :=
  t.main_group == gid || t.additional_groups.contains gid

/-- Typed outcomes of Attendance.clean (models.py lines 268-273): the grade
range check runs first, then the late-without-attendance check. -/
inductive AttendanceCleanError where
  | GradeOutOfRange
  | LateWithoutAttendance
deriving DecidableEq

/-- Attendance.clean (models.py): raise GradeOutOfRange when a grade is
present and lies outside [2,5]; raise LateWithoutAttendance when the student
is marked late but not attended; otherwise accept. -/
def attendanceCleanError (a : AttendanceRow) : Option AttendanceCleanError :=
  match a.grade with
  | some g =>
      if g < 2 || g > 5 then some .GradeOutOfRange
      else if !a.attended && a.late then some .LateWithoutAttendance
      else none
  | none =>
      if !a.attended && a.late then some .LateWithoutAttendance
      else none

/-- Typed outcomes of the lesson-creating views (add_lesson and
create_lesson_from_schedule in views.py); each constructor is one of the
early-return error branches. -/
inductive LessonError where
  | MissingDate
  | MissingSchedule
  | ScheduleNotFound
  | NotAuthorized
  | WeekdayMismatch
  | DuplicateLesson
  | MissingSubjectGroup
  | SubjectNotFound
  | GroupNotFound
  | InvalidTimeRange
deriving DecidableEq

/-- Result of a lesson-creating view: the typed error (none on success) and
the store after the request (unchanged on every error path). -/
structure LessonOutcome where
  error : Option LessonError
  store : Store
deriving DecidableEq

/-- Lesson.clean (models.py lines 220-222): reject when both times are set
and start_time is not strictly before end_time. -/
def lessonCleanOk (start_t end_t : Option Nat) : Bool :=
  match start_t, end_t with
  | some s, some e => decide (s < e)
  | _, _ => true

/-- The field-copy portion of Lesson.save (models.py lines 224-233): on every
save of a row that references a Schedule and has `is_from_schedule` set,
subject, group, teacher and both times are re-copied from the referenced
Schedule as it currently stands, and an empty classroom is filled from it. -/
def lessonSaveFields (store : Store) (l : LessonRow) : LessonRow :=
  match l.schedule with
  | some sid =>
      if l.is_from_schedule then
        match findSchedule store sid with
        | some sch =>
            { l with
              subject := sch.subject
              group := sch.group
              teacher := some sch.teacher
              start_time := some sch.start_time
              end_time := some sch.end_time
              classroom :=
                match l.classroom with
                | none => sch.classroom
                | some c => if c == "" then sch.classroom else some c }
        | none => l
      else l
  | none => l

/-- Default Attendance row used by every fan-out and by the reconciler:
attended=false, late=false, grade=null. -/
def defaultAttendance (lid sid : Nat) : AttendanceRow :=
  { lesson := lid, student := sid, attended := false, late := false, grade := none }

/-- Lesson.objects.create followed by the attendance fan-out shared by both
lesson-creating views (views.py lines 584-600 and 1026-1039): run Lesson.save
(field copy plus clean), append the row, then bulk_create one default
Attendance row per student currently in the lesson's group. -/
def createLessonAndFanOut (store : Store) (row0 : LessonRow) : LessonOutcome :=
  if lessonCleanOk (lessonSaveFields store row0).start_time (lessonSaveFields store row0).end_time then
    { error := none
      store :=
        { store with
          lessons := store.lessons ++ [lessonSaveFields store row0]
          attendances := store.attendances ++
            ((store.students.filter
                (fun s => s.group == (lessonSaveFields store row0).group)).map
              (fun s => defaultAttendance (lessonSaveFields store row0).id s.id))
          nextLessonId := store.nextLessonId + 1 } }
  else { error := some .InvalidTimeRange, store := store }

/-- POST payload of the add_lesson view (views.py lines 467-480):
`from_schedule` is the `lesson_type` selector; missing form fields are
`none`; `classroom` defaults to the empty string as in `POST.get`. -/
structure AddLessonRequest where
  from_schedule : Bool
  schedule_id : Option Nat
  date : Option Nat
  subject : Option Nat
  group : Option Nat
  start_time : Option Nat
  end_time : Option Nat
  classroom : String
  notes : String
deriving DecidableEq

/-- The add_lesson view (views.py lines 467-606) for an authenticated
teacher `t`: the checks run in source order, every failing check returns its
typed error with the store untouched, and a passing run inserts the Lesson
and fans out default Attendance rows. -/
def addLesson (store : Store) (t : TeacherRow) (req : AddLessonRequest) : LessonOutcome :=
  match req.date with
  | none => { error := some .MissingDate, store := store }
  | some d =>
    if req.from_schedule then
      match req.schedule_id with
      | none => { error := some .MissingSchedule, store := store }
      | some sid =>
        match findSchedule store sid with
        | none => { error := some .ScheduleNotFound, store := store }
        | some sch =>
          if !teacherWorksWithGroup t sch.group then
            { error := some .NotAuthorized, store := store }
          else if dateWeekday d != sch.weekday then
            { error := some .WeekdayMismatch, store := store }
          else if store.lessons.any (fun l => l.schedule == some sid && l.date == d) then
            { error := some .DuplicateLesson, store := store }
          else
            createLessonAndFanOut store
              { id := store.nextLessonId
                schedule := some sid
                subject := sch.subject
                date := d
                group := sch.group
                teacher := some sch.teacher
                classroom := if req.classroom == "" then sch.classroom else some req.classroom
                start_time := some sch.start_time
                end_time := some sch.end_time
                is_from_schedule := true
                notes := req.notes }
    else
      match req.subject, req.group with
      | some subjId, some grpId =>
        match findSubject store subjId with
        | none => { error := some .SubjectNotFound, store := store }
        | some _ =>
          match findGroup store grpId with
          | none => { error := some .GroupNotFound, store := store }
          | some _ =>
            if !teacherWorksWithGroup t grpId then
              { error := some .NotAuthorized, store := store }
            else if store.lessons.any
                (fun l => l.subject == subjId && l.group == grpId && l.date == d) then
              { error := some .DuplicateLesson, store := store }
            else
              createLessonAndFanOut store
                { id := store.nextLessonId
                  schedule := none
                  subject := subjId
                  date := d
                  group := grpId
                  teacher := some t.id
                  classroom := some req.classroom
                  start_time := req.start_time
                  end_time := req.end_time
                  is_from_schedule := false
                  notes := req.notes }
      | _, _ => { error := some .MissingSubjectGroup, store := store }

/-- The per-schedule authorization of create_lesson_from_schedule (views.py
lines 967-977): the caller must be the schedule's teacher or a superuser. -/
def scheduleEditAllowed (requester : Option Nat) (isSuper : Bool) (schTeacher : Nat) : Bool :=
  match requester with
  | some tid => tid == schTeacher || isSuper
  | none => isSuper

/-- The create_lesson_from_schedule view (views.py lines 962-1051):
`requester` is the caller's teacher id if any, `isSuper` the superuser flag;
checks run in source order and a passing run inserts the Lesson from the
Schedule's fields and fans out default Attendance rows. -/
def createLessonFromSchedule (store : Store) (requester : Option Nat) (isSuper : Bool)
    (sid : Nat) (dateOpt : Option Nat) (classroom : String) (notes : String) : LessonOutcome :=
  match findSchedule store sid with
  | none => { error := some .ScheduleNotFound, store := store }
  | some sch =>
    if !scheduleEditAllowed requester isSuper sch.teacher then
      { error := some .NotAuthorized, store := store }
    else
      match dateOpt with
      | none => { error := some .MissingDate, store := store }
      | some d =>
        if dateWeekday d != sch.weekday then
          { error := some .WeekdayMismatch, store := store }
        else if store.lessons.any (fun l => l.schedule == some sid && l.date == d) then
          { error := some .DuplicateLesson, store := store }
        else
          createLessonAndFanOut store
            { id := store.nextLessonId
              schedule := some sid
              subject := sch.subject
              date := d
              group := sch.group
              teacher := some sch.teacher
              classroom := if classroom == "" then sch.classroom else some classroom
              start_time := some sch.start_time
              end_time := some sch.end_time
              is_from_schedule := true
              notes := notes }

/-- Cascade delete of the delete_schedule view (views.py lines 954-958):
`schedule.delete()` under the declared foreign keys (`Lesson.schedule` and
`Attendance.lesson` are both on_delete=CASCADE in models.py) removes the
Schedule row, every Lesson generated from it, and those Lessons' Attendance
rows. -/
def deleteSchedule (store : Store) (sid : Nat) : Store :=
  let deadLesson : LessonRow → Bool := fun l => l.schedule == some sid
  { store with
    schedules := store.schedules.filter (fun s => !(s.id == sid))
    lessons := store.lessons.filter (fun l => !deadLesson l)
    attendances := store.attendances.filter
      (fun a => !(store.lessons.any (fun l => deadLesson l && l.id == a.lesson))) }

/-- Row update of a Schedule (the admin CRUD edit of a Schedule row): only
the schedules table is touched. -/
def updateScheduleRow (store : Store) (sid : Nat) (f : ScheduleRow → ScheduleRow) : Store :=
  { store with
    schedules := store.schedules.map (fun s => if s.id == sid then f s else s) }

/-- Typed outcomes of the add_schedule view (views.py lines 779-914); each
constructor is one of the early-return error branches, in source order. -/
inductive ScheduleError where
  | MissingFields
  | GroupNotFound
  | SubjectNotFound
  | TeacherNotFound
  | NotSelf
  | InvalidTimeRange
  | TeacherNotQualified
  | TeacherNotAssignedToGroup
  | GroupTimeConflict
  | TeacherTimeConflict
deriving DecidableEq

/-- Result of the add_schedule view: the typed error (none on success) and
the store after the request. -/
structure ScheduleOutcome where
  error : Option ScheduleError
  store : Store
deriving DecidableEq

/-- POST payload of the add_schedule view; missing form fields are `none`,
`classroom` defaults to the empty string. -/
structure AddScheduleRequest where
  group : Option Nat
  subject : Option Nat
  teacher : Option Nat
  weekday : Option Nat
  start_time : Option Nat
  end_time : Option Nat
  classroom : String
deriving DecidableEq

/-- The group-scoped conflict query of add_schedule (views.py lines 848-857):
filter active rows of the same group and weekday, exclude rows ending at or
before the candidate start, exclude rows starting at or after the candidate
end, take the first remaining row. -/
def groupTimeConflict (rows : List ScheduleRow) (gid wd s e : Nat) : Option ScheduleRow :=
  (((rows.filter (fun r => r.group == gid && r.weekday == wd && r.is_active)).filter
      (fun r => !(decide (r.end_time ≤ s)))).filter
      (fun r => !(decide (e ≤ r.start_time)))).head?

/-- The teacher-scoped conflict query of add_schedule (views.py lines
868-876): the same two excludes, scoped to (teacher, weekday). -/
def teacherTimeConflict (rows : List ScheduleRow) (tid wd s e : Nat) : Option ScheduleRow :=
  (((rows.filter (fun r => r.teacher == tid && r.weekday == wd && r.is_active)).filter
      (fun r => !(decide (r.end_time ≤ s)))).filter
      (fun r => !(decide (e ≤ r.start_time)))).head?

/-- The add_schedule view (views.py lines 779-914): `requesterTeacher` is the
caller's teacher id if any, `isSuper` the superuser flag; the checks run in
source order and a passing run inserts the new active Schedule row. -/
def addSchedule (store : Store) (requesterTeacher : Option Nat) (isSuper : Bool)
    (req : AddScheduleRequest) : ScheduleOutcome :=
  match req.group, req.subject, req.teacher, req.weekday, req.start_time, req.end_time with
  | some gid, some subjId, some tid, some wd, some st, some et =>
    match findGroup store gid with
    | none => { error := some .GroupNotFound, store := store }
    | some _ =>
      match findSubject store subjId with
      | none => { error := some .SubjectNotFound, store := store }
      | some _ =>
        match findTeacher store tid with
        | none => { error := some .TeacherNotFound, store := store }
        | some t =>
          if (match requesterTeacher with
              | some rt => !isSuper && !(rt == tid)
              | none => false) then
            { error := some .NotSelf, store := store }
          else if decide (et ≤ st) then
            { error := some .InvalidTimeRange, store := store }
          else if !(t.subjects.contains subjId) then
            { error := some .TeacherNotQualified, store := store }
          else if !teacherWorksWithGroup t gid then
            { error := some .TeacherNotAssignedToGroup, store := store }
          else
            match groupTimeConflict store.schedules gid wd st et with
            | some _ => { error := some .GroupTimeConflict, store := store }
            | none =>
              match teacherTimeConflict store.schedules tid wd st et with
              | some _ => { error := some .TeacherTimeConflict, store := store }
              | none =>
                { error := none
                  store :=
                    { store with
                      schedules := store.schedules ++
                        [{ id := store.nextScheduleId
                           group := gid
                           subject := subjId
                           teacher := tid
                           weekday := wd
                           start_time := st
                           end_time := et
                           classroom := some req.classroom
                           is_active := true }]
                      nextScheduleId := store.nextScheduleId + 1 } }
  | _, _, _, _, _, _ => { error := some .MissingFields, store := store }

/-- Per-lesson form data of the edit_attendance view (views.py lines
229-251): the two checkboxes and the grade field, the latter given as the
integer the non-empty field parses to (`none` for an empty or non-numeric
field, as `int()` failure yields grade=None in the source). -/
structure AttendanceInput where
  attended : Bool
  late : Bool
  grade : Option Int
deriving DecidableEq

/-- Grade handling of edit_attendance (views.py lines 243-251): a parsed
grade outside [2,5] is replaced by None, everything else is kept. -/
def parseGradeInput (g : Option Int) : Option Int :=
  match g with
  | some n => if n < 2 || n > 5 then none else some n
  | none => none

/-- Result of one edit_attendance write: the ValidationError surfaced by the
save, if any (the view catches it and leaves the row unsaved), and the store
after the write. -/
structure AttendanceOutcome where
  error : Option AttendanceCleanError
  store : Store
deriving DecidableEq

/-- Normalization of the late flag by edit_attendance (views.py lines
239-241): when the student did not attend, late is forced false. -/
def normalizeLate (attended late : Bool) : Bool :=
  if !attended then false else late

/-- One (student, lesson) write of the edit_attendance POST loop (views.py
lines 229-282): late is forced false when attended is false, the grade is
range-coerced, then the existing row is updated when any field changed, or a
new row is created; Attendance.save runs clean and a ValidationError leaves
the store unchanged for this row. -/
def editAttendanceStep (store : Store) (studentId lessonId : Nat)
    (inp : AttendanceInput) : AttendanceOutcome :=
  match store.attendances.find? (fun a => a.student == studentId && a.lesson == lessonId) with
  | some a =>
      if a.attended != inp.attended || a.late != normalizeLate inp.attended inp.late
          || a.grade != parseGradeInput inp.grade then
        match attendanceCleanError { a with attended := inp.attended, late := normalizeLate inp.attended inp.late, grade := parseGradeInput inp.grade } with
        | some e => { error := some e, store := store }
        | none =>
            { error := none
              store :=
                { store with
                  attendances := store.attendances.map
                    (fun x => if x.student == studentId && x.lesson == lessonId then
                        { x with
                          attended := inp.attended
                          late := normalizeLate inp.attended inp.late
                          grade := parseGradeInput inp.grade }
                      else x) } }
      else { error := none, store := store }
  | none =>
      match attendanceCleanError { lesson := lessonId, student := studentId, attended := inp.attended, late := normalizeLate inp.attended inp.late, grade := parseGradeInput inp.grade } with
      | some e => { error := some e, store := store }
      | none =>
          { error := none
            store :=
              { store with
                attendances := store.attendances ++
                  [{ lesson := lessonId
                     student := studentId
                     attended := inp.attended
                     late := normalizeLate inp.attended inp.late
                     grade := parseGradeInput inp.grade }] } }

/-- A row for the (lesson, student) pair exists
(`Attendance.objects.filter(lesson=..., student=...)` non-empty). -/
def hasRecordFor (atts : List AttendanceRow) (lid sid : Nat) : Bool :=
  atts.any (fun a => a.lesson == lid && a.student == sid)

/-- The per-lesson body of create_missing_attendance_records (views.py lines
646-668): the students of the lesson's group without a row for this lesson,
each mapped to a default Attendance row. -/
def missingRowsFor (students : List StudentRow) (atts : List AttendanceRow)
    (l : LessonRow) : List AttendanceRow :=
  (students.filter (fun s => s.group == l.group && !hasRecordFor atts l.id s.id)).map
    (fun s => defaultAttendance l.id s.id)

/-- One loop iteration of the reconciler: bulk_create the missing rows of
lesson `l` onto the current attendance table. -/
def reconcileStep (students : List StudentRow) (atts : List AttendanceRow)
    (l : LessonRow) : List AttendanceRow :=
  atts ++ missingRowsFor students atts l

/-- The create_missing_attendance_records view, POST branch (views.py lines
640-671): iterate over all lessons, appending the missing default rows of
each against the attendance table as it then stands. -/
def createMissingAttendance (store : Store) : Store :=
  { store with
    attendances := store.lessons.foldl (reconcileStep store.students) store.attendances }

/-- Sample group used by the concrete instances below. -/
def demoGroup : GroupRow := { id := 1, name := "G1", course := 1 }

/-- Sample subject. -/
def demoSubject : SubjectRow := { id := 1, name := "Math" }

/-- Sample teacher: main group 1, qualified for subject 1. -/
def demoTeacher : TeacherRow :=
  { id := 1, main_group := 1, additional_groups := [], subjects := [1] }

/-- Sample student 1 of group 1. -/
def demoStudent1 : StudentRow := { id := 1, group := 1 }

/-- Sample student 2 of group 1. -/
def demoStudent2 : StudentRow := { id := 2, group := 1 }

/-- Sample active Schedule: group 1, subject 1, teacher 1, Monday,
09:00-10:00 (minutes 540-600). -/
def demoSchedule1 : ScheduleRow :=
  { id := 1, group := 1, subject := 1, teacher := 1, weekday := 0
    start_time := 540, end_time := 600, classroom := some "101", is_active := true }

/-- Sample Lesson generated from demoSchedule1 on day 7 (a Monday), holding
the snapshot of its fields. -/
def demoLesson10 : LessonRow :=
  { id := 10, schedule := some 1, subject := 1, date := 7, group := 1
    teacher := some 1, classroom := some "101", start_time := some 540
    end_time := some 600, is_from_schedule := true, notes := "" }

/-- Sample store: one group with two students, one schedule, one lesson
generated from it, and an attendance row for student 1 only (student 2 is
missing one, as after a late join). -/
def demoStore : Store :=
  { groups := [demoGroup], subjects := [demoSubject], teachers := [demoTeacher]
    students := [demoStudent1, demoStudent2], schedules := [demoSchedule1]
    lessons := [demoLesson10], attendances := [defaultAttendance 10 1]
    nextLessonId := 11, nextScheduleId := 2 }

/-- Manual add_lesson request colliding with demoLesson10 on
(subject, group, date) but at a different start_time (10:00 vs 09:00). -/
def demoManualReq : AddLessonRequest :=
  { from_schedule := false, schedule_id := none, date := some 7
    subject := some 1, group := some 1, start_time := some 600
    end_time := some 660, classroom := "", notes := "" }

/-- Schedule candidate [09:30,10:30) on the same group and weekday as
demoSchedule1 [09:00,10:00): overlapping. -/
def demoOverlapReq : AddScheduleRequest :=
  { group := some 1, subject := some 1, teacher := some 1, weekday := some 0
    start_time := some 570, end_time := some 630, classroom := "" }

/-- Schedule candidate [10:00,11:00) on the same group and weekday as
demoSchedule1 [09:00,10:00): adjacent, non-overlapping. -/
def demoAdjacentReq : AddScheduleRequest :=
  { group := some 1, subject := some 1, teacher := some 1, weekday := some 0
    start_time := some 600, end_time := some 660, classroom := "" }

/-- demoStore after an admin edit of demoSchedule1 moving it to
10:00-11:00. -/
def demoStoreEdited : Store :=
  updateScheduleRow demoStore 1 (fun s => { s with start_time := 600, end_time := 660 })

/-- add_lesson request generating a second lesson from demoSchedule1 on day
14 (the following Monday). -/
def demoFromScheduleReq : AddLessonRequest :=
  { from_schedule := true, schedule_id := some 1, date := some 14
    subject := none, group := none, start_time := none
    end_time := none, classroom := "", notes := "" }

/-- add_lesson request for demoSchedule1 on day 8 (a Tuesday): weekday
mismatch with the Monday schedule. -/
def demoMismatchReq : AddLessonRequest :=
  { from_schedule := true, schedule_id := some 1, date := some 8
    subject := none, group := none, start_time := none
    end_time := none, classroom := "", notes := "" }

/-- The record of a (student, lesson) pair as the edit_attendance view sees
it: first row of `Attendance.objects.filter(student=...)` for the lesson. -/
def viewRecord (store : Store) (studentId lessonId : Nat) : Option AttendanceRow :=
  store.attendances.find? (fun a => a.student == studentId && a.lesson == lessonId)

/-- add_lesson request with no date selected (first rejection of the view). -/
def demoNoDateReq : AddLessonRequest :=
  { from_schedule := true, schedule_id := some 1, date := none
    subject := none, group := none, start_time := none
    end_time := none, classroom := "", notes := "" }

/-- A list's head? is present exactly when the list has a member. -/
theorem head_isSome_iff_exists_mem {α : Type} (l : List α) :
    l.head?.isSome = true ↔ ∃ x, x ∈ l := by
  cases l with
  | nil => simp
  | cons x xs => exact iff_of_true rfl ⟨x, List.mem_cons_self x xs⟩

/-- Updating exactly the rows matched by `p` commutes with find?: the first
match is the updated first previous match, provided the update preserves the
match. -/
theorem find?_map_ite {α : Type} (xs : List α) (p : α → Bool) (upd : α → α)
    (h : ∀ x, p x = true → p (upd x) = true) :
    (xs.map (fun x => if p x then upd x else x)).find? p = (xs.find? p).map upd := by
  induction xs with
  | nil => rfl
  | cons x xs ih =>
    cases hx : p x with
    | true =>
        simp only [List.map_cons, hx, if_true]
        rw [List.find?_cons_of_pos _ (h x hx), List.find?_cons_of_pos _ hx]
        rfl
    | false =>
        simp only [List.map_cons, hx, if_false]
        rw [List.find?_cons_of_neg _ (by simp [hx]), List.find?_cons_of_neg _ (by simp [hx])]
        exact ih

/-- Lesson.save never changes the primary key. -/
theorem lessonSaveFields_id (store : Store) (l : LessonRow) :
    (lessonSaveFields store l).id = l.id := by
  unfold lessonSaveFields
  repeat' split
  all_goals rfl

/-- An erroring Lesson.objects.create leaves the store untouched. -/
theorem createLessonAndFanOut_error_store (store : Store) (row : LessonRow) :
    (createLessonAndFanOut store row).error.isSome = true →
    (createLessonAndFanOut store row).store = store := by
  unfold createLessonAndFanOut
  split
  · intro h; simp at h
  · intro _; rfl

/-- createLessonAndFanOut surfaces no error other than the time-range
ValidationError of Lesson.clean. -/
theorem createLessonAndFanOut_error_cases (store : Store) (row : LessonRow) :
    (createLessonAndFanOut store row).error = none ∨
    (createLessonAndFanOut store row).error = some .InvalidTimeRange := by
  unfold createLessonAndFanOut
  split
  · exact Or.inl rfl
  · exact Or.inr rfl

/-- Attendance.clean accepts every record written by the edit_attendance
view: after late-normalization and grade range-coercion neither clean check
can fire. -/
theorem attendanceCleanError_normalized (lid sid : Nat) (attended lateIn : Bool)
    (g : Option Int) :
    attendanceCleanError
      { lesson := lid, student := sid, attended := attended
        late := normalizeLate attended lateIn, grade := parseGradeInput g } = none := by
  cases g with
  | none => cases attended <;> cases lateIn <;> simp [attendanceCleanError, parseGradeInput, normalizeLate]
  | some n =>
      by_cases hn : n < 2 || n > 5
      · cases attended <;> cases lateIn <;>
          simp [attendanceCleanError, parseGradeInput, normalizeLate, hn]
      · cases attended <;> cases lateIn <;>
          simp [attendanceCleanError, parseGradeInput, normalizeLate, hn]

/-- One edit_attendance write always succeeds, and afterwards the record of
the pair carries the submitted attended flag, the normalized late flag, and
the range-coerced grade. -/
theorem editAttendanceStep_spec (store : Store) (sid lid : Nat) (inp : AttendanceInput) :
    (editAttendanceStep store sid lid inp).error = none ∧
    ∃ a, viewRecord (editAttendanceStep store sid lid inp).store sid lid = some a ∧
      a.attended = inp.attended ∧
      a.late = normalizeLate inp.attended inp.late ∧
      a.grade = parseGradeInput inp.grade := by
  unfold editAttendanceStep viewRecord
  cases hf : store.attendances.find? (fun a => a.student == sid && a.lesson == lid) with
  | none =>
      rw [attendanceCleanError_normalized]
      refine ⟨rfl,
        { lesson := lid, student := sid, attended := inp.attended
          late := normalizeLate inp.attended inp.late
          grade := parseGradeInput inp.grade }, ?_, rfl, rfl, rfl⟩
      show (store.attendances ++ [_]).find? _ = _
      rw [List.find?_append, hf, Option.none_or]
      rw [List.find?_cons_of_pos _ (by simp)]
  | some a =>
      cases hch : (a.attended != inp.attended || a.late != normalizeLate inp.attended inp.late
          || a.grade != parseGradeInput inp.grade) with
      | false =>
          simp only [hch, Bool.false_eq_true, if_false]
          simp only [Bool.or_eq_false_iff, bne_eq_false_iff_eq] at hch
          exact ⟨by simp, a, hf, hch.1.1, hch.1.2, hch.2⟩
      | true =>
          simp only [hch, if_true]
          rw [attendanceCleanError_normalized]
          have hpa := List.find?_some hf
          refine ⟨rfl,
            { a with
              attended := inp.attended
              late := normalizeLate inp.attended inp.late
              grade := parseGradeInput inp.grade }, ?_, rfl, rfl, rfl⟩
          show (store.attendances.map _).find? _ = some _
          rw [find?_map_ite _ _ _ (fun x hx => by simp [hx]), hf]
          simp [hpa]

/-- Rows present before a reconciler pass are still present afterwards. -/
theorem mem_foldl_reconcileStep (students : List StudentRow) (ls : List LessonRow) :
    ∀ (atts : List AttendanceRow) (a : AttendanceRow), a ∈ atts →
      a ∈ ls.foldl (reconcileStep students) atts := by
  induction ls with
  | nil => intro atts a ha; simpa using ha
  | cons l ls ih =>
      intro atts a ha
      rw [List.foldl_cons]
      exact ih _ a (List.mem_append_left _ ha)

/-- hasRecordFor is monotone under appending rows. -/
theorem hasRecordFor_append_left (atts extra : List AttendanceRow) (lid sid : Nat)
    (h : hasRecordFor atts lid sid = true) : hasRecordFor (atts ++ extra) lid sid = true := by
  unfold hasRecordFor at h ⊢
  rw [List.any_append, h, Bool.true_or]

/-- hasRecordFor is monotone under a reconciler pass. -/
theorem hasRecordFor_foldl (students : List StudentRow) (ls : List LessonRow) :
    ∀ (atts : List AttendanceRow) (lid sid : Nat),
      hasRecordFor atts lid sid = true →
      hasRecordFor (ls.foldl (reconcileStep students) atts) lid sid = true := by
  induction ls with
  | nil => intro atts lid sid h; simpa using h
  | cons l ls ih =>
      intro atts lid sid h
      rw [List.foldl_cons]
      exact ih _ _ _ (hasRecordFor_append_left _ _ _ _ h)

/-- After the reconciler processes lesson `l`, every student of its group has
a row for it. -/
theorem reconcileStep_covers (students : List StudentRow) (atts : List AttendanceRow)
    (l : LessonRow) (s : StudentRow) (hs : s ∈ students) (hg : s.group = l.group) :
    hasRecordFor (reconcileStep students atts l) l.id s.id = true := by
  cases hrec : hasRecordFor atts l.id s.id with
  | true => exact hasRecordFor_append_left _ _ _ _ hrec
  | false =>
      have hmem : defaultAttendance l.id s.id ∈ missingRowsFor students atts l := by
        unfold missingRowsFor
        exact List.mem_map.mpr ⟨s, List.mem_filter.mpr ⟨hs, by simp [hg, hrec]⟩, rfl⟩
      have hany : (missingRowsFor students atts l).any
          (fun a => a.lesson == l.id && a.student == s.id) = true :=
        List.any_eq_true.mpr ⟨_, hmem, by simp [defaultAttendance]⟩
      unfold reconcileStep hasRecordFor
      rw [List.any_append, hany, Bool.or_true]

/-- One reconciler run covers every (lesson, enrolled student) pair. -/
theorem foldl_reconcile_covers (students : List StudentRow) (ls : List LessonRow) :
    ∀ (atts : List AttendanceRow) (l : LessonRow) (s : StudentRow),
      l ∈ ls → s ∈ students → s.group = l.group →
      hasRecordFor (ls.foldl (reconcileStep students) atts) l.id s.id = true := by
  induction ls with
  | nil => intro _ _ _ h; cases h
  | cons l0 ls ih =>
      intro atts l s hl hs hg
      rw [List.foldl_cons]
      rcases List.mem_cons.mp hl with rfl | hl2
      · exact hasRecordFor_foldl students ls _ _ _ (reconcileStep_covers students atts l s hs hg)
      · exact ih _ l s hl2 hs hg

/-- Every row present after a reconciler run is either an old row or a
default row for a pair that was missing one: a lesson of the store and a
student of its group with no previous row. -/
theorem mem_foldl_reconcile_inv (students : List StudentRow) (ls : List LessonRow) :
    ∀ (atts : List AttendanceRow) (a : AttendanceRow),
      a ∈ ls.foldl (reconcileStep students) atts →
      a ∈ atts ∨ ∃ l, l ∈ ls ∧ ∃ s, s ∈ students ∧ s.group = l.group ∧
        a = defaultAttendance l.id s.id ∧ hasRecordFor atts l.id s.id = false := by
  induction ls with
  | nil => intro atts a ha; exact Or.inl (by simpa using ha)
  | cons l0 ls ih =>
      intro atts a ha
      rw [List.foldl_cons] at ha
      rcases ih _ a ha with h | ⟨l, hl, s, hs, hg, hae, hrec⟩
      · rcases List.mem_append.mp h with h1 | h2
        · exact Or.inl h1
        · right
          unfold missingRowsFor at h2
          obtain ⟨s, hsf, rfl⟩ := List.mem_map.mp h2
          obtain ⟨hs, hcond⟩ := List.mem_filter.mp hsf
          simp only [Bool.and_eq_true, beq_iff_eq, Bool.not_eq_true'] at hcond
          exact ⟨l0, List.mem_cons_self _ _, s, hs, hcond.1, rfl, hcond.2⟩
      · right
        refine ⟨l, List.mem_cons_of_mem _ hl, s, hs, hg, hae, ?_⟩
        unfold reconcileStep at hrec
        cases hrec0 : hasRecordFor atts l.id s.id with
        | false => rfl
        | true =>
            rw [hasRecordFor_append_left _ _ _ _ hrec0] at hrec
            cases hrec

/-- A reconciler pass over lessons whose missing-row lists are all empty
changes nothing. -/
theorem foldl_reconcile_fixed (students : List StudentRow) (ls : List LessonRow) :
    ∀ (atts : List AttendanceRow),
      (∀ l ∈ ls, missingRowsFor students atts l = []) →
      ls.foldl (reconcileStep students) atts = atts := by
  induction ls with
  | nil => intro atts _; rfl
  | cons l0 ls ih =>
      intro atts h
      rw [List.foldl_cons]
      have h0 : reconcileStep students atts l0 = atts := by
        unfold reconcileStep
        rw [h l0 (List.mem_cons_self _ _), List.append_nil]
      rw [h0]
      exact ih atts (fun l hl => h l (List.mem_cons_of_mem _ hl))

/-- A lesson whose every enrolled student already has a row contributes no
missing rows. -/
theorem missingRowsFor_eq_nil (students : List StudentRow) (atts : List AttendanceRow)
    (l : LessonRow)
    (h : ∀ s ∈ students, s.group = l.group → hasRecordFor atts l.id s.id = true) :
    missingRowsFor students atts l = [] := by
  unfold missingRowsFor
  rw [List.map_eq_nil_iff, List.filter_eq_nil_iff]
  intro s hs
  simp only [Bool.and_eq_true, beq_iff_eq, Bool.not_eq_true']
  rintro ⟨hg, hrec⟩
  rw [h s hs hg] at hrec
  cases hrec

/-- A successful Lesson.objects.create appends one lesson row carrying the
requested id, and the attendance rows of that id afterwards are exactly one
default row per student of the lesson's group. -/
theorem createLessonAndFanOut_fanout (store : Store) (row : LessonRow)
    (hfresh : ∀ a ∈ store.attendances, a.lesson ≠ row.id) :
    (createLessonAndFanOut store row).error = none →
    ∃ row2, row2.id = row.id ∧
      (createLessonAndFanOut store row).store.lessons = store.lessons ++ [row2] ∧
      (createLessonAndFanOut store row).store.attendances.filter
          (fun a => a.lesson == row2.id) =
        (store.students.filter (fun s => s.group == row2.group)).map
          (fun s => defaultAttendance row2.id s.id) := by
  unfold createLessonAndFanOut
  split
  · intro _
    refine ⟨lessonSaveFields store row, lessonSaveFields_id store row, rfl, ?_⟩
    rw [List.filter_append]
    have h1 : store.attendances.filter
        (fun a => a.lesson == (lessonSaveFields store row).id) = [] := by
      rw [List.filter_eq_nil_iff]
      intro a ha
      simp only [beq_iff_eq, lessonSaveFields_id]
      exact hfresh a ha
    rw [h1, List.nil_append, List.filter_map]
    have h2 : ((store.students.filter
          (fun s => s.group == (lessonSaveFields store row).group)).filter
        ((fun a => a.lesson == (lessonSaveFields store row).id) ∘
          (fun s => defaultAttendance (lessonSaveFields store row).id s.id))) =
        store.students.filter (fun s => s.group == (lessonSaveFields store row).group) := by
      rw [List.filter_eq_self]
      intro s _
      simp [defaultAttendance]
    rw [h2]
  · intro h
    cases h

/-- C1 (corrected): deleting a Schedule cascade-deletes exactly the Lessons
generated from it — a surviving lesson is a previous one not referencing the
deleted Schedule, every previous lesson not referencing it survives, the
Schedule row itself is gone, attendance rows of the deleted lessons are gone
with them, and the student roster is untouched. -/
theorem c1_delete_schedule_cascades (store : Store) (sid : Nat) :
    (∀ l ∈ (deleteSchedule store sid).lessons, l ∈ store.lessons ∧ l.schedule ≠ some sid) ∧
    (∀ l ∈ store.lessons, l.schedule ≠ some sid → l ∈ (deleteSchedule store sid).lessons) ∧
    (∀ s ∈ (deleteSchedule store sid).schedules, s ∈ store.schedules ∧ s.id ≠ sid) ∧
    (∀ a ∈ (deleteSchedule store sid).attendances, a ∈ store.attendances ∧
      ∀ l ∈ store.lessons, l.schedule = some sid → l.id ≠ a.lesson) ∧
    (deleteSchedule store sid).students = store.students := by
  refine ⟨?_, ?_, ?_, ?_, rfl⟩
  · intro l hl
    obtain ⟨h1, h2⟩ := List.mem_filter.mp hl
    simp only [Bool.not_eq_eq_eq_not, Bool.not_true, beq_eq_false_iff_ne] at h2
    exact ⟨h1, h2⟩
  · intro l hl hns
    exact List.mem_filter.mpr ⟨hl, by simp [hns]⟩
  · intro s hs
    obtain ⟨h1, h2⟩ := List.mem_filter.mp hs
    simp only [Bool.not_eq_eq_eq_not, Bool.not_true, beq_eq_false_iff_ne] at h2
    exact ⟨h1, h2⟩
  · intro a ha
    obtain ⟨h1, h2⟩ := List.mem_filter.mp ha
    refine ⟨h1, ?_⟩
    intro l hl hsch
    simp only [Bool.not_eq_eq_eq_not, Bool.not_true, List.any_eq_false] at h2
    have := h2 l hl
    simp only [Bool.and_eq_true, beq_iff_eq, not_and] at this
    exact this hsch
  
/-- C1 counterexample: in demoStore, Lesson 10 was generated from Schedule 1
(its stored foreign key is 1), yet after delete_schedule on Schedule 1 no
lesson with id 10 remains in the store, contradicting the claim that the
Lesson survives with a dangling key. -/
theorem c1_counterexample :
    demoStore.lessons.any (fun l => l.id == 10 && l.schedule == some 1) = true ∧
    (deleteSchedule demoStore 1).lessons.any (fun l => l.id == 10) = false := by
  constructor <;> rfl

/-- C1 witness: deleting the absent Schedule 2 keeps Lesson 10, whose key
references Schedule 1. -/
theorem c1_delete_schedule_cascades_witness :
    demoLesson10 ∈ (deleteSchedule demoStore 2).lessons :=
  (c1_delete_schedule_cascades demoStore 2).2.1 demoLesson10 (by decide) (by decide)

/-- C4 (corrected): an edit of a Schedule row alone leaves the stored Lesson
and Attendance tables unchanged, but a later re-save of a from-schedule
Lesson re-copies subject, group, teacher and both times from the Schedule as
it then stands — the snapshot holds only until the Lesson is saved again. -/
theorem c4_snapshot_until_resave (store : Store) (sid : Nat) (f : ScheduleRow → ScheduleRow)
    (l : LessonRow) (sch : ScheduleRow)
    (h1 : l.is_from_schedule = true) (h2 : l.schedule = some sid)
    (h3 : findSchedule (updateScheduleRow store sid f) sid = some sch) :
    (updateScheduleRow store sid f).lessons = store.lessons ∧
    (updateScheduleRow store sid f).attendances = store.attendances ∧
    (lessonSaveFields (updateScheduleRow store sid f) l).subject = sch.subject ∧
    (lessonSaveFields (updateScheduleRow store sid f) l).group = sch.group ∧
    (lessonSaveFields (updateScheduleRow store sid f) l).teacher = some sch.teacher ∧
    (lessonSaveFields (updateScheduleRow store sid f) l).start_time = some sch.start_time ∧
    (lessonSaveFields (updateScheduleRow store sid f) l).end_time = some sch.end_time := by
  refine ⟨rfl, rfl, ?_, ?_, ?_, ?_, ?_⟩ <;> simp [lessonSaveFields, h1, h2, h3]

/-- C4 counterexample: after the Schedule of demoStore is edited to
10:00-11:00, the stored Lesson row still shows the 09:00 snapshot, but
re-running Lesson.save on it overwrites the snapshot with the edited times,
contradicting immutability across a later re-save. -/
theorem c4_counterexample :
    demoLesson10 ∈ demoStoreEdited.lessons ∧
    demoLesson10.start_time = some 540 ∧
    (lessonSaveFields demoStoreEdited demoLesson10).start_time = some 600 ∧
    (lessonSaveFields demoStoreEdited demoLesson10).end_time = some 660 := by
  refine ⟨?_, rfl, ?_, ?_⟩ <;> decide

/-- C4 witness: applying the theorem to the demo edit shows the re-saved
lesson picks up the edited start time. -/
theorem c4_snapshot_until_resave_witness :
    (lessonSaveFields demoStoreEdited demoLesson10).start_time = some 600 :=
  (c4_snapshot_until_resave demoStore 1 (fun s => { s with start_time := 600, end_time := 660 })
    demoLesson10 { demoSchedule1 with start_time := 600, end_time := 660 }
    rfl rfl (by decide)).2.2.2.2.2.1

/-- C10 (confirmed): whenever add_lesson returns any rejection, the store is
exactly the one it was called with — no Lesson row and no Attendance row was
created. -/
theorem c10_add_lesson_atomic (store : Store) (t : TeacherRow) (req : AddLessonRequest) :
    (addLesson store t req).error.isSome = true → (addLesson store t req).store = store := by
  unfold addLesson
  repeat' split
  all_goals first
    | (intro _; rfl)
    | (exact createLessonAndFanOut_error_store _ _)

/-- C10 witness: the missing-date rejection leaves demoStore unchanged. -/
theorem c10_add_lesson_atomic_witness :
    (addLesson demoStore demoTeacher demoNoDateReq).store = demoStore :=
  c10_add_lesson_atomic demoStore demoTeacher demoNoDateReq (by decide)

/-- C2 (corrected): once the manual-path pre-checks pass, add_lesson rejects
with DuplicateLesson exactly when some existing Lesson matches the candidate
on (subject, group, date) alone — the existing lesson's start_time plays no
role in the duplicate check. -/
theorem c2_manual_duplicate_ignores_start_time (store : Store) (t : TeacherRow)
    (req : AddLessonRequest) (d subjId grpId : Nat) (subj : SubjectRow) (grp : GroupRow)
    (h1 : req.from_schedule = false) (h2 : req.date = some d)
    (h3 : req.subject = some subjId) (h4 : req.group = some grpId)
    (h5 : findSubject store subjId = some subj) (h6 : findGroup store grpId = some grp)
    (h7 : teacherWorksWithGroup t grpId = true) :
    (addLesson store t req).error = some .DuplicateLesson ↔
      ∃ l, l ∈ store.lessons ∧ l.subject = subjId ∧ l.group = grpId ∧ l.date = d := by
  unfold addLesson
  rw [h2]
  simp only [h1, Bool.false_eq_true, if_false, h3, h4, h5, h6, h7, Bool.not_true]
  cases hany : store.lessons.any (fun l => l.subject == subjId && l.group == grpId && l.date == d) with
  | true =>
      simp only [hany, if_true]
      constructor
      · intro _
        obtain ⟨l, hl, hp⟩ := List.any_eq_true.mp hany
        simp only [Bool.and_eq_true, beq_iff_eq] at hp
        exact ⟨l, hl, hp.1.1, hp.1.2, hp.2⟩
      · intro _
        trivial
  | false =>
      simp only [hany, Bool.false_eq_true, if_false]
      constructor
      · intro hc
        rcases createLessonAndFanOut_error_cases store _ with h | h <;> rw [h] at hc <;> cases hc
      · rintro ⟨l, hl, hs, hg, hd⟩
        have : store.lessons.any
            (fun l => l.subject == subjId && l.group == grpId && l.date == d) = true :=
          List.any_eq_true.mpr ⟨l, hl, by simp [hs, hg, hd]⟩
        rw [hany] at this
        cases this

/-- C2 counterexample: demoStore holds a lesson for (subject 1, group 1,
day 7) starting at 09:00; the manual request for the same triple starting at
10:00 is nevertheless rejected as DuplicateLesson, contradicting the claim
that it succeeds. -/
theorem c2_counterexample :
    (addLesson demoStore demoTeacher demoManualReq).error = some .DuplicateLesson ∧
    demoStore.lessons.any
      (fun l => l.subject == 1 && l.group == 1 && l.date == 7 && l.start_time == some 540) = true ∧
    demoManualReq.start_time = some 600 := by
  refine ⟨?_, ?_, rfl⟩ <;> rfl

/-- C2 witness: the rejection of demoManualReq follows from the theorem via
the stored colliding lesson. -/
theorem c2_manual_duplicate_ignores_start_time_witness :
    (addLesson demoStore demoTeacher demoManualReq).error = some .DuplicateLesson :=
  (c2_manual_duplicate_ignores_start_time demoStore demoTeacher demoManualReq 7 1 1
      demoSubject demoGroup rfl rfl rfl rfl (by decide) (by decide) (by decide)).mpr
    ⟨demoLesson10, by decide, rfl, rfl, rfl⟩

/-- The filter-exclude-exclude-first chain used by both conflict queries of
add_schedule finds a row exactly when some row in scope on the same weekday
is active and overlaps the candidate half-open interval. -/
theorem conflictChain_isSome (rows : List ScheduleRow) (scope : ScheduleRow → Bool)
    (wd s e : Nat) :
    ((((rows.filter (fun r => scope r && r.weekday == wd && r.is_active)).filter
        (fun r => !(decide (r.end_time ≤ s)))).filter
        (fun r => !(decide (e ≤ r.start_time)))).head?).isSome = true ↔
      ∃ r, r ∈ rows ∧ scope r = true ∧ r.weekday = wd ∧ r.is_active = true ∧
        s < r.end_time ∧ r.start_time < e := by
  rw [head_isSome_iff_exists_mem]
  constructor
  · rintro ⟨r, hr⟩
    simp only [List.mem_filter, Bool.and_eq_true, beq_iff_eq, Bool.not_eq_true',
      decide_eq_false_iff_not, not_le] at hr
    obtain ⟨⟨⟨hmem, hsw, hact⟩, hs⟩, he⟩ := hr
    exact ⟨r, hmem, hsw.1, hsw.2, hact, hs, he⟩
  · rintro ⟨r, hmem, hscope, hwd, hact, hs, he⟩
    refine ⟨r, ?_⟩
    simp only [List.mem_filter, Bool.and_eq_true, beq_iff_eq, Bool.not_eq_true',
      decide_eq_false_iff_not, not_le]
    exact ⟨⟨⟨hmem, ⟨hscope, hwd⟩, hact⟩, hs⟩, he⟩

/-- C3 (confirmed): the add_schedule conflict queries detect exactly the
half-open interval overlaps — a stored active row of the same group (or
teacher) and weekday conflicts iff s1 < e2 and s2 < e1; concretely, the
candidate [09:30,10:30) against the stored [09:00,10:00) on the same group
and weekday is rejected as a group conflict, while the adjacent candidate
[10:00,11:00) is accepted. -/
theorem c3_overlap_half_open :
    (∀ rows gid wd s e, ((groupTimeConflict rows gid wd s e).isSome = true ↔
      ∃ r, r ∈ rows ∧ r.group = gid ∧ r.weekday = wd ∧ r.is_active = true ∧
        s < r.end_time ∧ r.start_time < e)) ∧
    (∀ rows tid wd s e, ((teacherTimeConflict rows tid wd s e).isSome = true ↔
      ∃ r, r ∈ rows ∧ r.teacher = tid ∧ r.weekday = wd ∧ r.is_active = true ∧
        s < r.end_time ∧ r.start_time < e)) ∧
    (addSchedule demoStore (some 1) false demoOverlapReq).error = some .GroupTimeConflict ∧
    (addSchedule demoStore (some 1) false demoAdjacentReq).error = none := by
  refine ⟨?_, ?_, by decide, by decide⟩
  · intro rows gid wd s e
    have h := conflictChain_isSome rows (fun r => r.group == gid) wd s e
    simpa only [groupTimeConflict, beq_iff_eq] using h
  · intro rows tid wd s e
    have h := conflictChain_isSome rows (fun r => r.teacher == tid) wd s e
    simpa only [teacherTimeConflict, beq_iff_eq] using h

/-- C3 witness: the overlapping demo pair is flagged through the group
conflict query. -/
theorem c3_overlap_half_open_witness :
    (groupTimeConflict demoStore.schedules 1 0 570 630).isSome = true :=
  (c3_overlap_half_open.1 demoStore.schedules 1 0 570 630).mpr
    ⟨demoSchedule1, by decide, rfl, rfl, rfl, by decide, by decide⟩

/-- C7 (confirmed): for both lesson-materialization entry points, a date
whose weekday differs from the Schedule's weekday yields the WeekdayMismatch
rejection with the store untouched once the earlier checks pass, and no
materialization from a Schedule can succeed unless the weekdays agree. -/
theorem c7_weekday_mismatch (store : Store) (t : TeacherRow) (req : AddLessonRequest)
    (sid d : Nat) (sch : ScheduleRow) (requester : Option Nat) (isSuper : Bool)
    (room text : String) :
    ((req.from_schedule = true → req.schedule_id = some sid → req.date = some d →
        findSchedule store sid = some sch → teacherWorksWithGroup t sch.group = true →
        dateWeekday d ≠ sch.weekday →
        addLesson store t req = { error := some .WeekdayMismatch, store := store }) ∧
     (req.from_schedule = true → req.schedule_id = some sid → req.date = some d →
        findSchedule store sid = some sch → dateWeekday d ≠ sch.weekday →
        (addLesson store t req).error ≠ none) ∧
     (findSchedule store sid = some sch →
        scheduleEditAllowed requester isSuper sch.teacher = true →
        dateWeekday d ≠ sch.weekday →
        createLessonFromSchedule store requester isSuper sid (some d) room text =
          { error := some .WeekdayMismatch, store := store }) ∧
     (findSchedule store sid = some sch → dateWeekday d ≠ sch.weekday →
        (createLessonFromSchedule store requester isSuper sid (some d) room text).error ≠
          none)) := by
  refine ⟨?_, ?_, ?_, ?_⟩
  · intro hfs hsid hd hfind hauth hmk
    unfold addLesson
    rw [hd]
    simp only [hfs, if_true, hsid, hfind, hauth, Bool.not_true, Bool.false_eq_true, if_false]
    simp only [bne_iff_ne, ne_eq, hmk, not_false_eq_true, if_true]
  · intro hfs hsid hd hfind hmk
    unfold addLesson
    rw [hd]
    simp only [hfs, if_true, hsid, hfind]
    cases hauth : teacherWorksWithGroup t sch.group with
    | false => simp
    | true =>
        simp only [Bool.not_true, Bool.false_eq_true, if_false]
        simp only [bne_iff_ne, ne_eq, hmk, not_false_eq_true, if_true]
        simp
  · intro hfind hauth hmk
    unfold createLessonFromSchedule
    rw [hfind]
    simp only [hauth, Bool.not_true, Bool.false_eq_true, if_false]
    simp only [bne_iff_ne, ne_eq, hmk, not_false_eq_true, if_true]
  · intro hfind hmk
    unfold createLessonFromSchedule
    rw [hfind]
    cases hauth : scheduleEditAllowed requester isSuper sch.teacher with
    | false => simp [hauth]
    | true =>
        simp only [hauth, Bool.not_true, Bool.false_eq_true, if_false]
        simp only [bne_iff_ne, ne_eq, hmk, not_false_eq_true, if_true]
        simp

/-- C7 witness: requesting day 8 (a Tuesday) from the Monday demoSchedule1
is rejected as WeekdayMismatch with demoStore unchanged. -/
theorem c7_weekday_mismatch_witness :
    addLesson demoStore demoTeacher demoMismatchReq =
      { error := some .WeekdayMismatch, store := demoStore } :=
  (c7_weekday_mismatch demoStore demoTeacher demoMismatchReq 1 8 demoSchedule1 none false
      "" "").1 rfl rfl rfl (by decide) (by decide) (by decide)

/-- C5 (corrected): an edit_attendance write never surfaces any rejection;
an out-of-range grade is silently coerced to null (the record of the pair
ends with grade null, the rest of the update applies), while grades 2 and 5
pass through and an empty grade stays null; only the model-level
Attendance.clean rejects an out-of-range grade as GradeOutOfRange. -/
theorem c5_grade_handling (store : Store) (sid lid : Nat) (inp : AttendanceInput)
    (g : Int) (hg : g < 2 ∨ 5 < g) :
    (editAttendanceStep store sid lid inp).error = none ∧
    parseGradeInput (some g) = none ∧
    (∃ a, viewRecord
        (editAttendanceStep store sid lid { inp with grade := some g }).store sid lid =
        some a ∧ a.grade = none) ∧
    parseGradeInput (some 2) = some 2 ∧
    parseGradeInput (some 5) = some 5 ∧
    parseGradeInput none = none ∧
    (∀ a : AttendanceRow, a.grade = some g →
      attendanceCleanError a = some .GradeOutOfRange) := by
  have hcoerce : parseGradeInput (some g) = none := by
    rcases hg with h | h <;> simp [parseGradeInput, h]
  refine ⟨(editAttendanceStep_spec store sid lid inp).1, hcoerce, ?_, rfl, rfl, rfl, ?_⟩
  · obtain ⟨-, a, hv, -, -, hgr⟩ :=
      editAttendanceStep_spec store sid lid { inp with grade := some g }
    exact ⟨a, hv, by rw [hgr]; exact hcoerce⟩
  · intro a ha
    have hcond : (decide (g < 2) || decide (g > 5)) = true := by
      rcases hg with h | h <;> simp [h]
    unfold attendanceCleanError
    rw [ha]
    simp only [hcond, if_true]

/-- C5 counterexample: in demoStore, submitting grade 6 for student 1 on
lesson 10 is not rejected — the write succeeds and the stored record carries
attended=true with grade null, contradicting a GradeOutOfRange rejection. -/
theorem c5_counterexample :
    (editAttendanceStep demoStore 1 10
        { attended := true, late := false, grade := some 6 }).error = none ∧
    viewRecord (editAttendanceStep demoStore 1 10
        { attended := true, late := false, grade := some 6 }).store 1 10 =
      some { lesson := 10, student := 1, attended := true, late := false, grade := none } := by
  constructor <;> rfl

/-- C5 witness: instantiating the theorem at grade 6 on demoStore. -/
theorem c5_grade_handling_witness :
    parseGradeInput (some 6) = none :=
  (c5_grade_handling demoStore 1 10
      { attended := true, late := false, grade := some 6 } 6 (Or.inr (by omega))).2.1

/-- C6 (confirmed): a write supplying attended=false together with late=true
always succeeds — late is coerced to false before the save, no rejection is
surfaced, and the stored record of the pair shows attended=false,
late=false. -/
theorem c6_absent_coerces_late (store : Store) (sid lid : Nat) (g : Option Int) :
    (editAttendanceStep store sid lid { attended := false, late := true, grade := g }).error =
      none ∧
    ∃ a, viewRecord (editAttendanceStep store sid lid
        { attended := false, late := true, grade := g }).store sid lid = some a ∧
      a.attended = false ∧ a.late = false := by
  obtain ⟨he, a, hv, ha, hl, -⟩ :=
    editAttendanceStep_spec store sid lid { attended := false, late := true, grade := g }
  exact ⟨he, a, hv, ha, by simpa [normalizeLate] using hl⟩

/-- C8 (confirmed): one reconciler run keeps the lesson and student tables,
keeps every existing attendance row, creates only default rows for pairs of
a stored lesson and an enrolled student that had no row, covers every such
pair, and a second consecutive run changes nothing at all. -/
theorem c8_reconciler_idempotent (store : Store) :
    (createMissingAttendance store).lessons = store.lessons ∧
    (createMissingAttendance store).students = store.students ∧
    (∀ a ∈ store.attendances, a ∈ (createMissingAttendance store).attendances) ∧
    (∀ a ∈ (createMissingAttendance store).attendances, a ∈ store.attendances ∨
      ∃ l, l ∈ store.lessons ∧ ∃ s, s ∈ store.students ∧ s.group = l.group ∧
        a = defaultAttendance l.id s.id ∧
        hasRecordFor store.attendances l.id s.id = false) ∧
    (∀ l ∈ store.lessons, ∀ s ∈ store.students, s.group = l.group →
      hasRecordFor (createMissingAttendance store).attendances l.id s.id = true) ∧
    createMissingAttendance (createMissingAttendance store) = createMissingAttendance store := by
  refine ⟨rfl, rfl, ?_, ?_, ?_, ?_⟩
  · intro a ha
    exact mem_foldl_reconcileStep store.students store.lessons store.attendances a ha
  · intro a ha
    exact mem_foldl_reconcile_inv store.students store.lessons store.attendances a ha
  · intro l hl s hs hg
    exact foldl_reconcile_covers store.students store.lessons store.attendances l s hl hs hg
  · unfold createMissingAttendance
    dsimp only
    rw [foldl_reconcile_fixed store.students store.lessons _ ?_]
    intro l hl
    apply missingRowsFor_eq_nil
    intro s hs hg
    exact foldl_reconcile_covers store.students store.lessons store.attendances l s hl hs hg

/-- C8 witness: in demoStore student 2 lacked a row for lesson 10; after one
run the pair is covered. -/
theorem c8_reconciler_idempotent_witness :
    hasRecordFor (createMissingAttendance demoStore).attendances 10 2 = true :=
  (c8_reconciler_idempotent demoStore).2.2.2.2.1 demoLesson10 (by decide)
    demoStudent2 (by decide) rfl

/-- C9 (confirmed): when either materialization succeeds on a store whose
attendance rows never reference the upcoming lesson id, exactly one lesson
row is appended and the attendance rows of the new lesson are exactly one
default row (attended=false, late=false, grade=null) per student currently
enrolled in its group. -/
theorem c9_attendance_fanout (store : Store) (t : TeacherRow) (req : AddLessonRequest)
    (requester : Option Nat) (isSuper : Bool) (sid : Nat) (dOpt : Option Nat)
    (room text : String)
    (hfresh : ∀ a ∈ store.attendances, a.lesson ≠ store.nextLessonId) :
    ((addLesson store t req).error = none →
      ∃ row2, row2.id = store.nextLessonId ∧
        (addLesson store t req).store.lessons = store.lessons ++ [row2] ∧
        (addLesson store t req).store.attendances.filter (fun a => a.lesson == row2.id) =
          (store.students.filter (fun s => s.group == row2.group)).map
            (fun s => defaultAttendance row2.id s.id)) ∧
    ((createLessonFromSchedule store requester isSuper sid dOpt room text).error = none →
      ∃ row2, row2.id = store.nextLessonId ∧
        (createLessonFromSchedule store requester isSuper sid dOpt room text).store.lessons =
          store.lessons ++ [row2] ∧
        (createLessonFromSchedule store requester isSuper sid dOpt
            room text).store.attendances.filter (fun a => a.lesson == row2.id) =
          (store.students.filter (fun s => s.group == row2.group)).map
            (fun s => defaultAttendance row2.id s.id)) := by
  constructor
  · unfold addLesson
    repeat' split
    all_goals first
      | (intro h; cases h)
      | (apply createLessonAndFanOut_fanout
         exact fun a ha => hfresh a ha)
  · unfold createLessonFromSchedule
    repeat' split
    all_goals first
      | (intro h; cases h)
      | (apply createLessonAndFanOut_fanout
         exact fun a ha => hfresh a ha)

/-- C9 witness: materializing the second Monday lesson from demoSchedule1
appends exactly one lesson row to demoStore. -/
theorem c9_attendance_fanout_witness :
    (addLesson demoStore demoTeacher demoFromScheduleReq).store.lessons.length = 2 := by
  obtain ⟨row2, -, hl, -⟩ := (c9_attendance_fanout demoStore demoTeacher demoFromScheduleReq
      none false 1 none "" "" (by decide)).1 (by decide)
  rw [hl]
  rfl
